import Mathlib

/-!
Shallow embedding of `src/include/mcl.h` (Macro-Controlled Logging), and
verification of its level-gating semantics.

Severity levels are small integers (`__log_lvl_t` is a `char` in the source;
all values that occur lie in `[-1, 0x7f]`, so we model them as `Int`).
The three preprocessor knobs `DYNAMIC_LOG_LVL`, `DYNAMIC_LOG_LVL_MIN` and
`DYNAMIC_LOG_LVL_MAX` become a `Config` record fixed for a build.  The
per-system threshold cells `__<name>_log_lvl` become a map from system
names to levels; the logging statements become state transformers on that
map paired with a `Bool` recording whether `LOG_ACTION` was invoked.
-/

namespace MCL

/-- Log level for fatal conditions (mcl.h line 95). -/
def LOG_LVL_FATAL : Int := 0

/-- Log level for non-fatal errors (line 100). -/
def LOG_LVL_ERROR : Int := 1

/-- Log level for likely problems (line 105). -/
def LOG_LVL_WARN : Int := 2

/-- Log level for terse messages during normal operation (line 110). -/
def LOG_LVL_MSG : Int := 3

/-- Log level for progress messages during normal operation (line 115). -/
def LOG_LVL_INFO : Int := 4

/-- Log level for verbose messages during normal operation (line 120). -/
def LOG_LVL_VERBOSE : Int := 5

/-- Log level for debug messages (line 125). -/
def LOG_LVL_DEBUG : Int := 6

/-- Log level for trace debugging (line 130). -/
def LOG_LVL_TRACE : Int := 7

/-- Sentinel: ignore all log messages above the hardwire threshold (line 135). -/
def LOG_LVL_NONE : Int := -1

/-- Sentinel: print all log messages below the omission threshold (line 140). -/
def LOG_LVL_ALL : Int := 0x7f

/-- The build-time configuration surface of mcl.h: whether the log level can
be changed at runtime (`DYNAMIC_LOG_LVL`, default 1), the lowest dynamically
settable level (`DYNAMIC_LOG_LVL_MIN`, default `LOG_LVL_WARN`) and the highest
(`DYNAMIC_LOG_LVL_MAX`, default `LOG_LVL_VERBOSE`). -/
structure Config where
  DYNAMIC_LOG_LVL : Bool
  DYNAMIC_LOG_LVL_MIN : Int
  DYNAMIC_LOG_LVL_MAX : Int
deriving DecidableEq

/-- The bounds check at mcl.h lines 165-167: a translation unit including the
header fails to compile (`#error`) when `DYNAMIC_LOG_LVL_MIN` exceeds
`DYNAMIC_LOG_LVL_MAX`; otherwise compilation proceeds. -/
def configAccepted (c : Config) : Bool :=
  if c.DYNAMIC_LOG_LVL_MIN > c.DYNAMIC_LOG_LVL_MAX then false else true

/-- `__LOG_LVL_CLAMP(lvl)` (lines 358-360): constrain a potential log level to
lie within the hard thresholds. -/
def __LOG_LVL_CLAMP (c : Config) (lvl : Int) : Int :=
  if lvl > c.DYNAMIC_LOG_LVL_MAX then c.DYNAMIC_LOG_LVL_MAX
  else if lvl < c.DYNAMIC_LOG_LVL_MIN then c.DYNAMIC_LOG_LVL_MIN
  else lvl

/-- Logging systems are identified by the token pasted into `__<name>_log_lvl`. -/
abbrev Name := String

/-- The collection of per-system threshold cells, one `__log_lvl_t` per
defined system. -/
abbrev LvlState := Name → Int

/-- `DEFINE_LOG_SYSTEM(name, lvl)` (lines 381-386): when `DYNAMIC_LOG_LVL` is
set, define `__<name>_log_lvl` statically initialized to
`__LOG_LVL_CLAMP(lvl)`; otherwise the directive expands to nothing and no
cell is created. -/
def DEFINE_LOG_SYSTEM (c : Config) (name : Name) (lvl : Int) (st : LvlState) :
    LvlState :=
  if c.DYNAMIC_LOG_LVL then Function.update st name (__LOG_LVL_CLAMP c lvl)
  else st

/-- `GET_LOG_SYSTEM_LVL(name)` (lines 393-397): read `__<name>_log_lvl` when
`DYNAMIC_LOG_LVL` is set, else the compile-time constant
`DYNAMIC_LOG_LVL_MAX`. -/
def GET_LOG_SYSTEM_LVL (c : Config) (st : LvlState) (name : Name) : Int :=
  if c.DYNAMIC_LOG_LVL then st name else c.DYNAMIC_LOG_LVL_MAX

/-- `GET_LOG_SYSTEM_LVL` as a statement: the expansion is a pure read of the
cell (or a constant), so it carries the state through unchanged. -/
def GET_LOG_SYSTEM_LVL_run (c : Config) (st : LvlState) (name : Name) :
    LvlState × Int :=
  (st, GET_LOG_SYSTEM_LVL c st name)

/-- `SET_LOG_SYSTEM_LVL(name, lvl)` (lines 405-410): when `DYNAMIC_LOG_LVL`
is set, the assignment `__<name>_log_lvl = __LOG_LVL_CLAMP(lvl)`, whose value
is the clamped level; otherwise the directive expands to nothing (no state
change, no value). -/
def SET_LOG_SYSTEM_LVL (c : Config) (st : LvlState) (name : Name) (lvl : Int) :
    LvlState × Option Int :=
  if c.DYNAMIC_LOG_LVL then
    (Function.update st name (__LOG_LVL_CLAMP c lvl),
     some (__LOG_LVL_CLAMP c lvl))
  else (st, none)

/-- The common shape of the per-level logging statements `LOG_FATAL` ..
`LOG_TRACE` (lines 200-353), at call-site level `L`:
if `DYNAMIC_LOG_LVL_MAX >= L` and `DYNAMIC_LOG_LVL && DYNAMIC_LOG_LVL_MIN <= L`
then `{ if (__<name>_log_lvl >= L) { LOG_ACTION(L, args); } }`;
if `DYNAMIC_LOG_LVL_MAX >= L` but not the second test, the unconditional
`{ LOG_ACTION(L, args); }`; and if `DYNAMIC_LOG_LVL_MAX < L` the call site
expands to nothing.  The `Bool` records whether `LOG_ACTION` ran; no branch
writes any threshold cell. -/
def LOG_run (c : Config) (st : LvlState) (name : Name) (L : Int) :
    LvlState × Bool :=
  if c.DYNAMIC_LOG_LVL_MAX ≥ L then
    if c.DYNAMIC_LOG_LVL && decide (c.DYNAMIC_LOG_LVL_MIN ≤ L) then
      if st name ≥ L then (st, true) else (st, false)
    else (st, true)
  else (st, false)

/-- `LOG_FATAL(name, args...)` (lines 200-213). -/
def LOG_FATAL (c : Config) (st : LvlState) (name : Name) : LvlState × Bool :=
  LOG_run c st name LOG_LVL_FATAL

/-- `LOG_ERROR(name, args...)` (lines 220-233). -/
def LOG_ERROR (c : Config) (st : LvlState) (name : Name) : LvlState × Bool :=
  LOG_run c st name LOG_LVL_ERROR

/-- `LOG_WARN(name, args...)` (lines 240-253). -/
def LOG_WARN (c : Config) (st : LvlState) (name : Name) : LvlState × Bool :=
  LOG_run c st name LOG_LVL_WARN

/-- `LOG_MSG(name, args...)` (lines 260-273). -/
def LOG_MSG (c : Config) (st : LvlState) (name : Name) : LvlState × Bool :=
  LOG_run c st name LOG_LVL_MSG

/-- `LOG_INFO(name, args...)` (lines 280-293). -/
def LOG_INFO (c : Config) (st : LvlState) (name : Name) : LvlState × Bool :=
  LOG_run c st name LOG_LVL_INFO

/-- `LOG_VERBOSE(name, args...)` (lines 300-313). -/
def LOG_VERBOSE (c : Config) (st : LvlState) (name : Name) : LvlState × Bool :=
  LOG_run c st name LOG_LVL_VERBOSE

/-- `LOG_DEBUG(name, args...)` (lines 320-333). -/
def LOG_DEBUG (c : Config) (st : LvlState) (name : Name) : LvlState × Bool :=
  LOG_run c st name LOG_LVL_DEBUG

/-- `LOG_TRACE(name, args...)` (lines 340-353). -/
def LOG_TRACE (c : Config) (st : LvlState) (name : Name) : LvlState × Bool :=
  LOG_run c st name LOG_LVL_TRACE

/-- A translation unit that defines a logging system first passes the
`#error` bounds check at lines 165-167; under a rejected configuration the
program never builds and no threshold cell is ever created. -/
def COMPILE_DEFINE (c : Config) (name : Name) (lvl : Int) (st : LvlState) :
    Option LvlState :=
  if configAccepted c then some (DEFINE_LOG_SYSTEM c name lvl st) else none

/-- The threshold states a program built against configuration `c` can put
the cells in, as observed for system `name`: some initial definition of
`name` (static initializer), possibly interleaved with definitions of other
systems, `SET_LOG_SYSTEM_LVL` calls on any system, and logging statements. -/
inductive Reach (c : Config) (name : Name) : LvlState → Prop
  | define (st0 : LvlState) (d : Int) :
      Reach c name (DEFINE_LOG_SYSTEM c name d st0)
  | defineOther (st : LvlState) (n2 : Name) (d : Int) :
      Reach c name st → Reach c name (DEFINE_LOG_SYSTEM c n2 d st)
  | set (st : LvlState) (n2 : Name) (v : Int) :
      Reach c name st → Reach c name (SET_LOG_SYSTEM_LVL c st n2 v).1
  | log (st : LvlState) (n2 : Name) (L : Int) :
      Reach c name st → Reach c name (LOG_run c st n2 L).1

/-- The default configuration of mcl.h: dynamic adjustment on, bounds
`[LOG_LVL_WARN, LOG_LVL_VERBOSE]`. -/
def defaultCfg : Config := ⟨true, LOG_LVL_WARN, LOG_LVL_VERBOSE⟩

/-- A concrete cell map used to instantiate the theorems. -/
def stExample : LvlState := fun _ => 3

/-- The configuration with dynamic adjustment disabled at build time. -/
def staticCfg : Config := ⟨false, LOG_LVL_WARN, LOG_LVL_VERBOSE⟩

/-- A configuration whose bounds violate the build-time invariant. -/
def badCfg : Config := ⟨true, LOG_LVL_VERBOSE, LOG_LVL_WARN⟩

theorem configAccepted_iff (c : Config) :
    configAccepted c = true ↔
      c.DYNAMIC_LOG_LVL_MIN ≤ c.DYNAMIC_LOG_LVL_MAX := by
  unfold configAccepted
  split <;> simp <;> omega

theorem clamp_mem (c : Config)
    (h : c.DYNAMIC_LOG_LVL_MIN ≤ c.DYNAMIC_LOG_LVL_MAX) (v : Int) :
    c.DYNAMIC_LOG_LVL_MIN ≤ __LOG_LVL_CLAMP c v ∧
      __LOG_LVL_CLAMP c v ≤ c.DYNAMIC_LOG_LVL_MAX := by
  unfold __LOG_LVL_CLAMP
  by_cases h1 : v > c.DYNAMIC_LOG_LVL_MAX <;>
    by_cases h2 : v < c.DYNAMIC_LOG_LVL_MIN <;>
      simp [h1, h2] <;> omega

theorem LOG_run_fst (c : Config) (st : LvlState) (name : Name) (L : Int) :
    (LOG_run c st name L).1 = st := by
  unfold LOG_run
  split
  · split
    · split <;> rfl
    · rfl
  · rfl

theorem reach_inv (c : Config) (name : Name) (st : LvlState)
    (hdyn : c.DYNAMIC_LOG_LVL = true)
    (hacc : configAccepted c = true)
    (hr : Reach c name st) :
    c.DYNAMIC_LOG_LVL_MIN ≤ st name ∧ st name ≤ c.DYNAMIC_LOG_LVL_MAX := by
  have hmm := (configAccepted_iff c).mp hacc
  induction hr with
  | define st0 d =>
      simpa [DEFINE_LOG_SYSTEM, hdyn] using clamp_mem c hmm d
  | defineOther st n2 d hr ih =>
      by_cases hn : n2 = name
      · subst hn
        simpa [DEFINE_LOG_SYSTEM, hdyn] using clamp_mem c hmm d
      · have hne : name ≠ n2 := fun h => hn h.symm
        simpa [DEFINE_LOG_SYSTEM, hdyn, Function.update_noteq hne] using ih
  | set st n2 v hr ih =>
      by_cases hn : n2 = name
      · subst hn
        simpa [SET_LOG_SYSTEM_LVL, hdyn] using clamp_mem c hmm v
      · have hne : name ≠ n2 := fun h => hn h.symm
        simpa [SET_LOG_SYSTEM_LVL, hdyn, Function.update_noteq hne] using ih
  | log st n2 L hr ih =>
      rwa [LOG_run_fst]

/-- Claim C1: with dynamic adjustment enabled and `dynamicMin < L <= dynamicMax`,
a logging statement at level `L` invokes `LOG_ACTION` iff the system's stored
threshold is at least `L` at the moment of the call. -/
theorem log_fires_iff_threshold (c : Config) (st : LvlState) (name : Name)
    (L : Int)
    (hdyn : c.DYNAMIC_LOG_LVL = true)
    (hmin : c.DYNAMIC_LOG_LVL_MIN < L)
    (hmax : L ≤ c.DYNAMIC_LOG_LVL_MAX) :
    (LOG_run c st name L).2 = true ↔ st name ≥ L := by
  unfold LOG_run
  rw [if_pos (by omega), if_pos (by simp [hdyn]; omega)]
  split <;> simp_all

/-- Witness for C1 at the default configuration, level `INFO`, threshold 3. -/
theorem log_fires_iff_threshold_witness :
    (LOG_run defaultCfg stExample "sys" LOG_LVL_INFO).2 = true ↔
      stExample "sys" ≥ LOG_LVL_INFO :=
  log_fires_iff_threshold defaultCfg stExample "sys" LOG_LVL_INFO
    (by decide) (by decide) (by decide)

/-- Claim C2: with dynamic adjustment enabled and accepted bounds, every
reachable cell map keeps the stored threshold of `name` inside
`[dynamicMin, dynamicMax]`, whatever levels (sentinels included) were
requested along the way. -/
theorem threshold_invariant (c : Config) (name : Name) (st : LvlState)
    (hdyn : c.DYNAMIC_LOG_LVL = true)
    (hacc : configAccepted c = true)
    (hr : Reach c name st) :
    c.DYNAMIC_LOG_LVL_MIN ≤ st name ∧ st name ≤ c.DYNAMIC_LOG_LVL_MAX :=
  reach_inv c name st hdyn hacc hr

/-- Witness for C2: defining with sentinel `NONE` and then setting the
sentinel `ALL` leaves the threshold inside the default bounds. -/
theorem threshold_invariant_witness :
    defaultCfg.DYNAMIC_LOG_LVL_MIN ≤
      (SET_LOG_SYSTEM_LVL defaultCfg
        (DEFINE_LOG_SYSTEM defaultCfg "sys" LOG_LVL_NONE stExample)
        "sys" LOG_LVL_ALL).1 "sys" ∧
    (SET_LOG_SYSTEM_LVL defaultCfg
        (DEFINE_LOG_SYSTEM defaultCfg "sys" LOG_LVL_NONE stExample)
        "sys" LOG_LVL_ALL).1 "sys" ≤ defaultCfg.DYNAMIC_LOG_LVL_MAX :=
  threshold_invariant defaultCfg "sys" _ (by decide) (by decide)
    (Reach.set _ "sys" LOG_LVL_ALL (Reach.define stExample LOG_LVL_NONE))

/-- Claim C3: with dynamic adjustment enabled, `SET_LOG_SYSTEM_LVL` stores the
clamped level and evaluates to it, a following `GET_LOG_SYSTEM_LVL` reads the
clamped level back, and in particular `dynamicMax + 1` yields `dynamicMax`
and `dynamicMin - 1` yields `dynamicMin`. -/
theorem setLevel_clamps (c : Config) (st : LvlState) (name : Name) (v : Int)
    (hdyn : c.DYNAMIC_LOG_LVL = true)
    (hacc : configAccepted c = true) :
    (SET_LOG_SYSTEM_LVL c st name v).2 = some (__LOG_LVL_CLAMP c v) ∧
    GET_LOG_SYSTEM_LVL c (SET_LOG_SYSTEM_LVL c st name v).1 name =
      __LOG_LVL_CLAMP c v ∧
    (SET_LOG_SYSTEM_LVL c st name (c.DYNAMIC_LOG_LVL_MAX + 1)).2 =
      some c.DYNAMIC_LOG_LVL_MAX ∧
    (SET_LOG_SYSTEM_LVL c st name (c.DYNAMIC_LOG_LVL_MIN - 1)).2 =
      some c.DYNAMIC_LOG_LVL_MIN := by
  have hmm := (configAccepted_iff c).mp hacc
  refine ⟨?_, ?_, ?_, ?_⟩ <;>
    simp [SET_LOG_SYSTEM_LVL, GET_LOG_SYSTEM_LVL, hdyn]
  · unfold __LOG_LVL_CLAMP
    rw [if_pos (by omega)]
  · unfold __LOG_LVL_CLAMP
    rw [if_neg (by omega), if_pos (by omega)]

/-- Witness for C3 at the default configuration: requesting one past the
upper bound stores the upper bound. -/
theorem setLevel_clamps_witness :
    (SET_LOG_SYSTEM_LVL defaultCfg stExample "sys"
        (defaultCfg.DYNAMIC_LOG_LVL_MAX + 1)).2 =
      some defaultCfg.DYNAMIC_LOG_LVL_MAX :=
  (setLevel_clamps defaultCfg stExample "sys" 9 (by decide) (by decide)).2.2.1

/-- Claim C4: with dynamic adjustment enabled, a logging statement at a level
at or below `dynamicMin` always invokes the action in every reachable state,
whatever the current threshold. -/
theorem log_at_or_below_min_always_fires (c : Config) (st : LvlState)
    (name : Name) (L : Int)
    (hdyn : c.DYNAMIC_LOG_LVL = true)
    (hacc : configAccepted c = true)
    (hr : Reach c name st)
    (hL : L ≤ c.DYNAMIC_LOG_LVL_MIN) :
    (LOG_run c st name L).2 = true := by
  have hmm := (configAccepted_iff c).mp hacc
  have hinv := reach_inv c name st hdyn hacc hr
  unfold LOG_run
  rw [if_pos (by omega)]
  by_cases h2 : c.DYNAMIC_LOG_LVL_MIN ≤ L
  · rw [if_pos (by simp [hdyn, h2]), if_pos (by omega)]
  · rw [if_neg (by simp [hdyn, h2])]

/-- Witness for C4 (spec scenario 2): `LOG_FATAL` fires even when the
threshold sits at the lower bound `WARN`. -/
theorem log_at_or_below_min_always_fires_witness :
    (LOG_run defaultCfg
      (DEFINE_LOG_SYSTEM defaultCfg "sys" LOG_LVL_WARN stExample)
      "sys" LOG_LVL_FATAL).2 = true :=
  log_at_or_below_min_always_fires defaultCfg _ "sys" LOG_LVL_FATAL
    (by decide) (by decide) (Reach.define stExample LOG_LVL_WARN) (by decide)

/-- Claim C5: a logging statement at a level above `dynamicMax` expands to
nothing: it never invokes the action and leaves the state untouched,
regardless of the threshold. -/
theorem log_above_max_compiled_out (c : Config) (st : LvlState) (name : Name)
    (L : Int)
    (hL : c.DYNAMIC_LOG_LVL_MAX < L) :
    LOG_run c st name L = (st, false) := by
  unfold LOG_run
  rw [if_neg (by omega)]

/-- Witness for C5 (spec scenario 4): `LOG_DEBUG` under the default bounds. -/
theorem log_above_max_compiled_out_witness :
    LOG_run defaultCfg stExample "sys" LOG_LVL_DEBUG = (stExample, false) :=
  log_above_max_compiled_out defaultCfg stExample "sys" LOG_LVL_DEBUG
    (by decide)

/-- Claim C6: with dynamic adjustment disabled at build time,
`SET_LOG_SYSTEM_LVL` has no effect and no value, `GET_LOG_SYSTEM_LVL` is the
constant `dynamicMax`, every logging statement at a level at most
`dynamicMax` invokes the action, and levels above `dynamicMax` stay
compiled out. -/
theorem static_mode_semantics (c : Config) (st : LvlState) (name : Name)
    (v L : Int)
    (hdyn : c.DYNAMIC_LOG_LVL = false) :
    SET_LOG_SYSTEM_LVL c st name v = (st, none) ∧
    GET_LOG_SYSTEM_LVL c st name = c.DYNAMIC_LOG_LVL_MAX ∧
    (L ≤ c.DYNAMIC_LOG_LVL_MAX → (LOG_run c st name L).2 = true) ∧
    (c.DYNAMIC_LOG_LVL_MAX < L → (LOG_run c st name L).2 = false) := by
  refine ⟨?_, ?_, ?_, ?_⟩
  · simp [SET_LOG_SYSTEM_LVL, hdyn]
  · simp [GET_LOG_SYSTEM_LVL, hdyn]
  · intro h
    unfold LOG_run
    rw [if_pos (by omega), if_neg (by simp [hdyn])]
  · intro h
    unfold LOG_run
    rw [if_neg (by omega)]

/-- Witness for C6 (spec scenario 5) with dynamic adjustment compiled out:
`GET` is the constant upper bound, `SET` is a no-op, `VERBOSE` fires. -/
theorem static_mode_semantics_witness :
    GET_LOG_SYSTEM_LVL staticCfg stExample "sys" =
      staticCfg.DYNAMIC_LOG_LVL_MAX ∧
    SET_LOG_SYSTEM_LVL staticCfg stExample "sys" 9 = (stExample, none) ∧
    (LOG_run staticCfg stExample "sys" LOG_LVL_VERBOSE).2 = true :=
  ⟨(static_mode_semantics staticCfg stExample "sys" 9 LOG_LVL_VERBOSE
      (by decide)).2.1,
   (static_mode_semantics staticCfg stExample "sys" 9 LOG_LVL_VERBOSE
      (by decide)).1,
   (static_mode_semantics staticCfg stExample "sys" 9 LOG_LVL_VERBOSE
      (by decide)).2.2.1 (by decide)⟩

/-- Claim C7: `DEFINE_LOG_SYSTEM(name, lvl)` initializes the threshold of
`name` to the clamped default, as read back by `GET_LOG_SYSTEM_LVL`. -/
theorem define_initializes_clamped (c : Config) (st0 : LvlState) (name : Name)
    (d : Int)
    (hdyn : c.DYNAMIC_LOG_LVL = true) :
    GET_LOG_SYSTEM_LVL c (DEFINE_LOG_SYSTEM c name d st0) name =
      __LOG_LVL_CLAMP c d := by
  simp [GET_LOG_SYSTEM_LVL, DEFINE_LOG_SYSTEM, hdyn]

/-- Witness for C7 (spec scenario 1): bounds `[WARN, VERBOSE]` with default
`ERROR` give an initial threshold of `WARN`. -/
theorem define_initializes_clamped_witness :
    GET_LOG_SYSTEM_LVL defaultCfg
      (DEFINE_LOG_SYSTEM defaultCfg "sys" LOG_LVL_ERROR stExample) "sys" =
      LOG_LVL_WARN :=
  (define_initializes_clamped defaultCfg stExample "sys" LOG_LVL_ERROR
    (by decide)).trans (by decide)

/-- Claim C8: in every reachable state of an accepted configuration, setting
a system's level to its own current level leaves the cell map unchanged. -/
theorem setLevel_idempotent (c : Config) (name : Name) (st : LvlState)
    (hacc : configAccepted c = true)
    (hr : Reach c name st) :
    (SET_LOG_SYSTEM_LVL c st name (GET_LOG_SYSTEM_LVL c st name)).1 = st := by
  by_cases hdyn : c.DYNAMIC_LOG_LVL = true
  · have hinv := reach_inv c name st hdyn hacc hr
    have hclamp : __LOG_LVL_CLAMP c (st name) = st name := by
      unfold __LOG_LVL_CLAMP
      rw [if_neg (by omega), if_neg (by omega)]
    simp [SET_LOG_SYSTEM_LVL, GET_LOG_SYSTEM_LVL, hdyn, hclamp,
      Function.update_eq_self]
  · simp [SET_LOG_SYSTEM_LVL, hdyn]

/-- Witness for C8: after defining with level `MSG`, writing back the current
level changes nothing. -/
theorem setLevel_idempotent_witness :
    (SET_LOG_SYSTEM_LVL defaultCfg
        (DEFINE_LOG_SYSTEM defaultCfg "sys" LOG_LVL_MSG stExample) "sys"
        (GET_LOG_SYSTEM_LVL defaultCfg
          (DEFINE_LOG_SYSTEM defaultCfg "sys" LOG_LVL_MSG stExample)
          "sys")).1 =
      DEFINE_LOG_SYSTEM defaultCfg "sys" LOG_LVL_MSG stExample :=
  setLevel_idempotent defaultCfg "sys" _ (by decide)
    (Reach.define stExample LOG_LVL_MSG)

/-- Claim C9: a configuration with `dynamicMin > dynamicMax` trips the
`#error` directive: the build is rejected and no threshold cell is ever
created under it. -/
theorem invalid_bounds_rejected (c : Config) (name : Name) (d : Int)
    (st : LvlState)
    (h : c.DYNAMIC_LOG_LVL_MIN > c.DYNAMIC_LOG_LVL_MAX) :
    configAccepted c = false ∧ COMPILE_DEFINE c name d st = none := by
  have hacc : configAccepted c = false := by
    unfold configAccepted
    rw [if_pos h]
  exact ⟨hacc, by simp [COMPILE_DEFINE, hacc]⟩

/-- Witness for C9 at the swapped bounds `[VERBOSE, WARN]`. -/
theorem invalid_bounds_rejected_witness :
    configAccepted badCfg = false ∧
      COMPILE_DEFINE badCfg "sys" LOG_LVL_MSG stExample = none :=
  invalid_bounds_rejected badCfg "sys" LOG_LVL_MSG stExample (by decide)

/-- Claim C10: logging statements and `GET_LOG_SYSTEM_LVL` never write any
threshold cell: after either, every system's stored level equals its value
before the call. -/
theorem log_get_preserve_state (c : Config) (st : LvlState) (name n : Name)
    (L : Int) :
    (LOG_run c st name L).1 n = st n ∧
      (GET_LOG_SYSTEM_LVL_run c st name).1 n = st n :=
  ⟨by rw [LOG_run_fst], rfl⟩

end MCL
